import Mathlib

/-!
Shallow embedding of the paper-trading engine, the strategy set and the
backtest runner of the kalshi-btc-15-minute repository.

Conventions of the embedding:
* JavaScript numbers are modelled as exact rationals (`ℚ`); `Math.round`
  is Mathlib's `round` (floor of x + 1/2, matching JS semantics).
* Timestamps are naturals (milliseconds since the epoch).
* `Date.now()` and `Math.random()` are modelled by an oracle
  `env : ℕ → ℕ × ℕ` consulted at a running trade counter: the first
  component is the clock reading, the second the random draw.  A trade id
  `modelId-Date.now()-Math.random()` is the triple of those parts.
* A decision function that may throw is modelled as returning
  `Except Unit Decision`.
* `Math.sqrt` is modelled by an explicit function parameter
  `sqrtFn : ℚ → ℚ` wherever the source calls it.
-/

inductive MarketDirection
  | UP
  | DOWN
deriving DecidableEq, Repr

structure Candlestick where
  timestamp : ℕ
  openPrice : ℚ
  high : ℚ
  low : ℚ
  close : ℚ
  volume : ℚ
deriving DecidableEq, Repr

/-- `MarketData` with `minuteCandles` as a plain list: the source treats a
missing array and an empty array alike (it always tests `length > 0`). -/
structure MarketData where
  timestamp : ℕ
  currentPrice : ℚ
  yesPrice : ℚ
  noPrice : ℚ
  volume : ℚ
  minuteCandles : List Candlestick
deriving DecidableEq, Repr

instance : Inhabited MarketData :=
  ⟨{ timestamp := 0, currentPrice := 0, yesPrice := 0, noPrice := 0,
     volume := 0, minuteCandles := [] }⟩

structure Trade where
  id : String × ℕ × ℕ
  timestamp : ℕ
  direction : MarketDirection
  price : ℚ
  quantity : ℚ
  cost : ℚ
deriving DecidableEq, Repr

structure Position where
  direction : MarketDirection
  quantity : ℚ
  averagePrice : ℚ
  totalCost : ℚ
deriving DecidableEq, Repr

structure ModelState where
  balance : ℚ
  positions : List Position
  trades : List Trade
  totalPnL : ℚ
  dailyReturn : ℚ
deriving DecidableEq, Repr

inductive TradeAction
  | BUY_YES
  | BUY_NO
  | SELL
  | HOLD
deriving DecidableEq, Repr

structure Decision where
  action : TradeAction
  quantity : Option ℚ
deriving DecidableEq, Repr

structure TradingModel where
  id : String
  name : String
  state : ModelState
  makeDecision : MarketData → List MarketData → Except Unit Decision

def initialModelState : ModelState :=
  { balance := 100, positions := [], trades := [], totalPnL := 0, dailyReturn := 0 }

instance : Inhabited TradingModel :=
  ⟨{ id := "", name := "", state := initialModelState,
     makeDecision := fun _ _ => Except.ok ⟨TradeAction.HOLD, none⟩ }⟩

/-! ### PaperTradingEngine (src/lib/tradingEngine.ts) -/

/-- `decision.quantity || 1`: JavaScript treats a missing quantity and a
zero quantity alike as falsy, defaulting to 1. -/
def effQuantity : Option ℚ → ℚ
  | none => 1
  | some q => if q = 0 then 1 else q

/-- `decision.action === 'BUY_YES' ? 'UP' : 'DOWN'` (line 27). -/
def buyDirection (a : TradeAction) : MarketDirection :=
  if a = TradeAction.BUY_YES then MarketDirection.UP else MarketDirection.DOWN

/-- `direction === 'UP' ? marketData.yesPrice : marketData.noPrice` (line 28). -/
def buyPrice (a : TradeAction) (md : MarketData) : ℚ :=
  if buyDirection a = MarketDirection.UP then md.yesPrice else md.noPrice

/-- Position update of `executeTrade` (lines 60-78): the first position in
the matching direction is averaged into, otherwise a new position is
pushed at the end of the list. -/
def updateFirst (direction : MarketDirection) (price quantity cost : ℚ) :
    List Position → List Position
  | [] => [{ direction := direction, quantity := quantity,
             averagePrice := price, totalCost := cost }]
  | p :: ps =>
    if p.direction = direction then
      { p with
        averagePrice := (p.totalCost + cost) / (p.quantity + quantity)
        quantity := p.quantity + quantity
        totalCost := p.totalCost + cost } :: ps
    else p :: updateFirst direction price quantity cost ps

/-- `executeTrade` (lines 47-79): debit the cost, append the trade record,
update or create the matching-direction position. -/
def executeTrade (env : ℕ → ℕ × ℕ) (k : ℕ) (modelId : String)
    (direction : MarketDirection) (price quantity cost : ℚ)
    (st : ModelState) : ModelState :=
  let tradeRecord : Trade :=
    { id := (modelId, (env k).1, (env k).2)
      timestamp := (env k).1
      direction := direction
      price := price
      quantity := quantity
      cost := cost }
  { st with
    balance := st.balance - cost
    trades := st.trades ++ [tradeRecord]
    positions := updateFirst direction price quantity cost st.positions }

/-- `closePositions` (lines 81-97): close every open position at its own
average entry price, add the realized delta to the cumulative P&L and
clear the position list. -/
def closePositions (st : ModelState) : ModelState :=
  let acc := st.positions.foldl
    (fun (a : ℚ × ℚ) p =>
      let exitValue := p.averagePrice * p.quantity
      (a.1 + (exitValue - p.totalCost), a.2 + exitValue))
    (0, st.balance)
  { st with
    balance := acc.2
    totalPnL := st.totalPnL + acc.1
    positions := [] }

/-- `position.direction === 'UP' ? marketData.yesPrice : marketData.noPrice`. -/
def dirPrice (marketData : MarketData) : MarketDirection → ℚ
  | MarketDirection.UP => marketData.yesPrice
  | MarketDirection.DOWN => marketData.noPrice

/-- Per-model body of `settlePositions` (lines 99-118): every open position
exits at the settlement bar's price for its direction; the balance is
credited, the P&L accumulated, the positions cleared, and the daily
return recomputed against the hard-coded base 100. -/
def settleModelState (marketData : MarketData) (st : ModelState) : ModelState :=
  let acc := st.positions.foldl
    (fun (a : ℚ × ℚ) p =>
      let exitValue := dirPrice marketData p.direction * p.quantity
      (a.1 + (exitValue - p.totalCost), a.2 + exitValue))
    (0, st.balance)
  { st with
    balance := acc.2
    totalPnL := st.totalPnL + acc.1
    dailyReturn := ((acc.2 - 100) / 100) * 100
    positions := [] }

/-- `settlePositions` over the engine's model collection. -/
def settlePositions (marketData : MarketData) (models : List TradingModel) :
    List TradingModel :=
  models.map fun m => { m with state := settleModelState marketData m.state }

/-- The BUY_YES / BUY_NO dispatch of `executeTradingCycle` (lines 26-40):
the trade executes only when `cost ≤ balance`, consuming one oracle
value; otherwise the decision is dropped and the model is unchanged. -/
def buyStep (env : ℕ → ℕ × ℕ) (md : MarketData) (m : TradingModel) (k : ℕ)
    (a : TradeAction) (qopt : Option ℚ) : TradingModel × ℕ :=
  let price := buyPrice a md
  let quantity := effQuantity qopt
  let cost := price * quantity
  if cost ≤ m.state.balance then
    ({ m with state := executeTrade env k m.id (buyDirection a) price quantity cost m.state },
     k + 1)
  else (m, k)

/-- One model's share of `executeTradingCycle` (lines 13-44), including the
per-model try/catch: a decision error leaves the model untouched. -/
def tradeStep (env : ℕ → ℕ × ℕ) (md : MarketData) (h : List MarketData)
    (m : TradingModel) (k : ℕ) : TradingModel × ℕ :=
  match m.makeDecision md h with
  | Except.error _ => (m, k)
  | Except.ok d =>
    match d.action with
    | TradeAction.HOLD => (m, k)
    | TradeAction.SELL => ({ m with state := closePositions m.state }, k)
    | TradeAction.BUY_YES => buyStep env md m k TradeAction.BUY_YES d.quantity
    | TradeAction.BUY_NO => buyStep env md m k TradeAction.BUY_NO d.quantity

/-- `executeTradingCycle` over the model collection, threading the oracle
counter in model order. -/
def cycleModels (env : ℕ → ℕ × ℕ) (md : MarketData) (h : List MarketData) :
    List TradingModel → ℕ → List TradingModel × ℕ
  | [], k => ([], k)
  | m :: ms, k =>
    let r := tradeStep env md h m k
    let rest := cycleModels env md h ms r.2
    (r.1 :: rest.1, rest.2)

/-! ### Strategy set (src/lib/models) -/

/-- `calculateRSI` (src/lib/models/rsi.ts lines 3-21): note that the
average gain and loss both divide by the fixed period, not by the number
of changes. -/
def calculateRSI (prices : List ℚ) (period : ℕ) : ℚ :=
  if prices.length < period + 1 then 50
  else
    let changes := (prices.zip prices.tail).map fun pr => pr.2 - pr.1
    let gains := changes.filter fun c => decide (c > 0)
    let losses := (changes.filter fun c => decide (c < 0)).map fun c => |c|
    let avgGain := if gains.length > 0 then gains.sum / (period : ℚ) else 0
    let avgLoss := if losses.length > 0 then losses.sum / (period : ℚ) else 0
    if avgLoss = 0 then 100
    else
      let rs := avgGain / avgLoss
      100 - (100 / (1 + rs))

/-- Sub-bar price assembly shared verbatim by the momentum and RSI models:
the current bar's minute closes followed, for each of the last five
history bars, by that bar's minute closes or its bar-level price. -/
def subBarPrices (md : MarketData) (h : List MarketData) : List ℚ :=
  md.minuteCandles.map (fun c => c.close) ++
    (h.drop (h.length - 5)).flatMap fun x =>
      if x.minuteCandles.length > 0 then x.minuteCandles.map (fun c => c.close)
      else [x.currentPrice]

/-- The RSI threshold rule (rsi.ts lines 66-75). -/
def rsiSignal (rsi : ℚ) : Decision :=
  if rsi > 70 then ⟨TradeAction.BUY_NO, some 5⟩
  else if rsi < 30 then ⟨TradeAction.BUY_YES, some 5⟩
  else ⟨TradeAction.HOLD, none⟩

/-- `makeDecision` of the RSI model (rsi.ts lines 35-77).  The bar-level
fallback returns HOLD for fewer than 15 history bars before assembling
prices; the assembled list (history plus current) is then rechecked
against the same 15-point minimum. -/
def rsiMakeDecision (md : MarketData) (h : List MarketData) : Except Unit Decision :=
  let pricesOpt : Option (List ℚ) :=
    if md.minuteCandles.length > 0 then some (subBarPrices md h)
    else if h.length < 15 then none
    else some (h.map (fun d => d.currentPrice) ++ [md.currentPrice])
  match pricesOpt with
  | none => Except.ok ⟨TradeAction.HOLD, none⟩
  | some prices =>
    if prices.length < 15 then Except.ok ⟨TradeAction.HOLD, none⟩
    else Except.ok (rsiSignal (calculateRSI prices 14))

/-- `makeDecision` of the momentum model (sub-bar-aware version). -/
def momentumMakeDecision (md : MarketData) (h : List MarketData) :
    Except Unit Decision :=
  let priceDataOpt : Option (List ℚ) :=
    if md.minuteCandles.length > 0 then some (subBarPrices md h)
    else if h.length < 3 then none
    else some ((h.drop (h.length - 10)).map (fun d => d.currentPrice) ++ [md.currentPrice])
  match priceDataOpt with
  | none => Except.ok ⟨TradeAction.HOLD, none⟩
  | some priceData =>
    if priceData.length < 5 then Except.ok ⟨TradeAction.HOLD, none⟩
    else
      let lookback := min 10 (priceData.length / 2)
      let recent := priceData.drop (priceData.length - lookback)
      let first := recent.headD 0
      let momentum := (recent.getLastD 0 - first) / first
      let threshold : ℚ := if priceData.length > 15 then 2 / 1000 else 1 / 100
      if |momentum| > threshold then
        if momentum > 0 then Except.ok ⟨TradeAction.BUY_YES, some 5⟩
        else Except.ok ⟨TradeAction.BUY_NO, some 5⟩
      else Except.ok ⟨TradeAction.HOLD, none⟩

/-- `makeDecision` of the mean-reversion model (models/index.ts). -/
def meanReversionMakeDecision (md : MarketData) (h : List MarketData) :
    Except Unit Decision :=
  if h.length < 10 then Except.ok ⟨TradeAction.HOLD, none⟩
  else
    let prices := h.map fun d => d.currentPrice
    let avg := prices.sum / (prices.length : ℚ)
    let deviation := (md.currentPrice - avg) / avg
    if deviation > 2 / 100 then Except.ok ⟨TradeAction.BUY_NO, some 5⟩
    else if deviation < -(2 / 100) then Except.ok ⟨TradeAction.BUY_YES, some 5⟩
    else Except.ok ⟨TradeAction.HOLD, none⟩

/-- `calculateVolatility`: standard deviation of bar-to-bar returns,
with `Math.sqrt` as the explicit parameter `sqrtFn`. -/
def calculateVolatility (sqrtFn : ℚ → ℚ) (prices : List ℚ) : ℚ :=
  if prices.length < 2 then 0
  else
    let returns := (prices.zip prices.tail).map fun pr => (pr.2 - pr.1) / pr.1
    let mean := returns.sum / (returns.length : ℚ)
    let variance := (returns.map fun r => (r - mean) ^ 2).sum / (returns.length : ℚ)
    sqrtFn variance

/-- `makeDecision` of the volatility model (models/index.ts). -/
def volatilityMakeDecision (sqrtFn : ℚ → ℚ) (_md : MarketData)
    (h : List MarketData) : Except Unit Decision :=
  if h.length < 10 then Except.ok ⟨TradeAction.HOLD, none⟩
  else
    let prices := h.map fun d => d.currentPrice
    let recentVol := calculateVolatility sqrtFn (prices.drop (prices.length - 5))
    let longVol := calculateVolatility sqrtFn prices
    if recentVol > longVol * (3 / 2) then
      let recentChange := prices.getD (prices.length - 1) 0 - prices.getD (prices.length - 2) 0
      if recentChange > 0 then Except.ok ⟨TradeAction.BUY_YES, some 5⟩
      else Except.ok ⟨TradeAction.BUY_NO, some 5⟩
    else Except.ok ⟨TradeAction.HOLD, none⟩

def createMomentumModel : TradingModel :=
  { id := "momentum", name := "Momentum Strategy",
    state := initialModelState, makeDecision := momentumMakeDecision }

def createMeanReversionModel : TradingModel :=
  { id := "mean-reversion", name := "Mean Reversion Strategy",
    state := initialModelState, makeDecision := meanReversionMakeDecision }

def createRSIModel : TradingModel :=
  { id := "rsi", name := "RSI Strategy",
    state := initialModelState, makeDecision := rsiMakeDecision }

def createVolatilityModel (sqrtFn : ℚ → ℚ) : TradingModel :=
  { id := "volatility", name := "Volatility Strategy",
    state := initialModelState, makeDecision := volatilityMakeDecision sqrtFn }

/-- The four deterministic strategies (all but Random). -/
def deterministicModels (sqrtFn : ℚ → ℚ) : List TradingModel :=
  [createMomentumModel, createMeanReversionModel, createRSIModel,
   createVolatilityModel sqrtFn]

/-! ### Backtest runner (1-minute-aware `runBacktest`) -/

def batchSize : ℕ := 20

/-- Settlement bar construction inside the backtest loop: winner-take-all
prices derived from the realized movement between the current bar and the
next bar (`yesPrice` 100 on a strictly positive percent change, `noPrice`
100 on a zero or negative one). -/
def settlementDataFor (periodStart periodEnd : MarketData) : MarketData :=
  let priceChangePercent :=
    ((periodEnd.currentPrice - periodStart.currentPrice) / periodStart.currentPrice) * 100
  { periodEnd with
    yesPrice := if priceChangePercent > 0 then 100 else 0
    noPrice := if priceChangePercent ≤ 0 then 100 else 0 }

/-- The bar passed to `settlePositions` at loop index `i`: the constructed
winner-take-all bar except on the final bar, which settles with the last
known prices as-is. -/
def settleBarAt (data : List MarketData) (i : ℕ) : MarketData :=
  if i < data.length - 1 then
    settlementDataFor (data.getD i default) (data.getD (i + 1) default)
  else data.getD i default

/-- One minute-candle entry of the detailed history, with the percent
change taken against the previously pushed entry's (rounded) price. -/
def marketDataOfCandle (prev : Option ℚ) (candle : Candlestick) : MarketData :=
  let priceChange : ℚ :=
    match prev with
    | some p => ((candle.close - p) / p) * 100
    | none => 0
  let yesPrice := max 1 (min 99 (50 + priceChange * 10))
  { timestamp := candle.timestamp
    currentPrice := ((round candle.close : ℤ) : ℚ)
    yesPrice := ((round (yesPrice * 100) : ℤ) : ℚ) / 100
    noPrice := ((round ((100 - yesPrice) * 100) : ℤ) : ℚ) / 100
    volume := candle.volume
    minuteCandles := [candle] }

/-- The 1-minute-granular history built for indices `lo ≤ j < hi`. -/
def buildMinuteHistory (data : List MarketData) (lo hi : ℕ) : List MarketData :=
  ((List.range (hi - lo)).map fun j => lo + j).foldl
    (fun acc j =>
      let period := data.getD j default
      if period.minuteCandles.length > 0 then
        period.minuteCandles.foldl
          (fun acc2 c =>
            acc2 ++ [marketDataOfCandle ((acc2.getLast?).map fun p => p.currentPrice) c])
          acc
      else acc ++ [period])
    []

structure BtLoop where
  model : TradingModel
  k : ℕ
  bh : List (ℕ × ℚ)
  peak : ℚ
  maxDD : ℚ
  maxDDPct : ℚ

/-- The history handed to the decision cycle at index `i`: the sliding
20-bar window, expanded to 1-minute granularity when requested and the
current period carries minute candles. -/
def detailedHistoryAt (data : List MarketData) (use1Min : Bool) (i : ℕ) :
    List MarketData :=
  let periodStart := data.getD i default
  let history := (data.drop (i - batchSize)).take (i - (i - batchSize))
  if use1Min && decide (periodStart.minuteCandles.length > 0) then
    buildMinuteHistory data (i - batchSize) i
  else history

/-- One iteration of the backtest loop: decision cycle on bar `i`, then
settlement with `settleBarAt`, then balance-history and drawdown
bookkeeping. -/
def backtestStep (env : ℕ → ℕ × ℕ) (data : List MarketData) (use1Min : Bool)
    (i : ℕ) (st : BtLoop) : BtLoop :=
  let periodStart := data.getD i default
  let r := cycleModels env periodStart (detailedHistoryAt data use1Min i) [st.model] st.k
  let settled := settlePositions (settleBarAt data i) r.1
  let m := settled.headD default
  let balance := m.state.balance
  let peak := if balance > st.peak then balance else st.peak
  let drawdown := peak - balance
  let drawdownPct := (drawdown / peak) * 100
  { model := m
    k := r.2
    bh := st.bh ++ [(periodStart.timestamp, balance)]
    peak := peak
    maxDD := if drawdown > st.maxDD then drawdown else st.maxDD
    maxDDPct := if drawdownPct > st.maxDDPct then drawdownPct else st.maxDDPct }

/-- Retrospective win/loss classification pass: for each trade, find the
bar within 15 minutes of its timestamp, compare with the following bar
against the 0.01 percent noise threshold; unlocatable trades and
final-period trades count as losses.  Returns
(wins, losses, totalWinProfit, totalLossAmount). -/
def classifyTrades (data : List MarketData) (trades : List Trade) :
    ℕ × ℕ × ℚ × ℚ :=
  trades.foldl
    (fun acc t =>
      let w := acc.1
      let l := acc.2.1
      let tw := acc.2.2.1
      let tl := acc.2.2.2
      match data.findIdx? (fun d => ((d.timestamp : ℤ) - (t.timestamp : ℤ)).natAbs < 900000) with
      | some ti =>
        if ti < data.length - 1 then
          let ps := data.getD ti default
          let pe := data.getD (ti + 1) default
          let pcp := ((pe.currentPrice - ps.currentPrice) / ps.currentPrice) * 100
          let isWin : Bool :=
            match t.direction with
            | MarketDirection.UP => decide (pcp > 1 / 100)
            | MarketDirection.DOWN => decide (pcp < -(1 / 100))
          if isWin then (w + 1, l, tw + (100 - t.price) * t.quantity, tl)
          else (w, l + 1, tw, tl + t.cost)
        else (w, l + 1, tw, tl + t.cost)
      | none => (w, l + 1, tw, tl + t.cost))
    (0, 0, 0, 0)

/-- Period-over-period returns of the balance history. -/
def bhReturns (bh : List (ℕ × ℚ)) : List ℚ :=
  (bh.zip bh.tail).map fun pr =>
    if pr.1.2 > 0 then (pr.2.2 - pr.1.2) / pr.1.2 else 0

/-- Annualized Sharpe ratio of the balance history (zero when the standard
deviation is zero), `Math.sqrt` supplied as `sqrtFn`. -/
def sharpeOf (sqrtFn : ℚ → ℚ) (bh : List (ℕ × ℚ)) : ℚ :=
  let returns := bhReturns bh
  let avgReturn := if returns.length > 0 then returns.sum / (returns.length : ℚ) else 0
  let returnStdDev :=
    if returns.length > 1 then
      sqrtFn ((returns.map fun r => (r - avgReturn) ^ 2).sum / ((returns.length : ℚ) - 1))
    else 0
  if returnStdDev > 0 then (avgReturn / returnStdDev) * sqrtFn 252 else 0

/-- Calendar-day key of a millisecond timestamp (the ISO date prefix). -/
def dayKey (t : ℕ) : ℕ := t / 86400000

/-- Keys of a JavaScript `Map` in insertion order: first occurrences. -/
def firstOccurrences (l : List ℕ) : List ℕ :=
  l.foldl (fun acc x => if acc.contains x then acc else acc ++ [x]) []

def insertSorted (x : ℕ) : List ℕ → List ℕ
  | [] => [x]
  | y :: ys => if x ≤ y then x :: y :: ys else y :: insertSorted x ys

def sortAsc (l : List ℕ) : List ℕ := l.foldr insertSorted []

/-- The day's last recorded balance (`dailyBalanceMap.get(day)`), with the
JavaScript `|| initialBalance` fallback that also replaces a zero. -/
def dayBalance (bh : List (ℕ × ℚ)) (initialBalance : ℚ) (k : ℕ) : ℚ :=
  match (bh.filter fun p => dayKey p.1 == k).getLast? with
  | some p => if p.2 = 0 then initialBalance else p.2
  | none => initialBalance

/-- Percent changes between consecutive day-end balances. -/
def dailyReturnsOf (bh : List (ℕ × ℚ)) (initialBalance : ℚ) : List ℚ :=
  let sortedDays := sortAsc (firstOccurrences (bh.map fun p => dayKey p.1))
  (sortedDays.zip sortedDays.tail).map fun pr =>
    let prevBalance := dayBalance bh initialBalance pr.1
    let currBalance := dayBalance bh initialBalance pr.2
    ((currBalance - prevBalance) / prevBalance) * 100

/-- `profitFactor` with `none` standing for JavaScript `Infinity`. -/
structure BacktestResult where
  modelId : String
  modelName : String
  startingBalance : ℚ
  endingBalance : ℚ
  totalReturn : ℚ
  totalReturnPercent : ℚ
  totalTrades : ℕ
  winningTrades : ℕ
  losingTrades : ℕ
  winRate : ℚ
  totalPnL : ℚ
  averageWin : ℚ
  averageLoss : ℚ
  profitFactor : Option ℚ
  maxDrawdown : ℚ
  maxDrawdownPercent : ℚ
  sharpe : ℚ
  trades : List Trade
  balanceHistory : List (ℕ × ℚ)
  dailyReturns : List ℚ
deriving DecidableEq, Repr

structure BacktestSummary where
  periodStart : ℕ
  periodEnd : ℕ
  totalBars : ℕ
  days : ℕ
  results : List BacktestResult
  bestModel : Option BacktestResult
  worstModel : Option BacktestResult
  averageReturn : ℚ
  averageWinRate : ℚ
deriving DecidableEq, Repr

/-- The fresh loop state a model's backtest starts from: the template with
a zeroed state at the configured initial balance. -/
def btLoopInit (tmpl : TradingModel) (data : List MarketData)
    (initialBalance : ℚ) (k0 : ℕ) : BtLoop :=
  { model := { tmpl with
      state := { balance := initialBalance, positions := [], trades := [],
                 totalPnL := 0, dailyReturn := 0 } },
    k := k0,
    bh := [((data.headD default).timestamp, initialBalance)],
    peak := initialBalance, maxDD := 0, maxDDPct := 0 }

/-- The bar loop of one model's backtest, from index 20 to the end. -/
def btLoopRun (env : ℕ → ℕ × ℕ) (data : List MarketData) (use1Min : Bool)
    (tmpl : TradingModel) (initialBalance : ℚ) (k0 : ℕ) : BtLoop :=
  (List.range (data.length - batchSize)).foldl
    (fun st j => backtestStep env data use1Min (batchSize + j) st)
    (btLoopInit tmpl data initialBalance k0)

/-- The model after the loop and the final settlement against the last
known bar. -/
def btFinalModel (env : ℕ → ℕ × ℕ) (data : List MarketData) (use1Min : Bool)
    (tmpl : TradingModel) (initialBalance : ℚ) (k0 : ℕ) : TradingModel :=
  if data.length > 0 then
    { (btLoopRun env data use1Min tmpl initialBalance k0).model with
      state := settleModelState (data.getLastD default)
        (btLoopRun env data use1Min tmpl initialBalance k0).model.state }
  else (btLoopRun env data use1Min tmpl initialBalance k0).model

/-- One model's full backtest: fresh state at the configured initial
balance, the bar loop from index 20, the final settlement, then the
derived statistics. -/
def backtestModel (env : ℕ → ℕ × ℕ) (sqrtFn : ℚ → ℚ) (tmpl : TradingModel)
    (data : List MarketData) (initialBalance : ℚ) (use1Min : Bool) (k0 : ℕ) :
    BacktestResult × ℕ :=
  let L := btLoopRun env data use1Min tmpl initialBalance k0
  let finalModel := btFinalModel env data use1Min tmpl initialBalance k0
  let finalBalance := finalModel.state.balance
  let totalReturn := finalBalance - initialBalance
  let trades := finalModel.state.trades
  let cls := classifyTrades data trades
  let w := cls.1
  let l := cls.2.1
  let totalWins := cls.2.2.1
  let totalLosses := cls.2.2.2
  ({ modelId := finalModel.id
     modelName := finalModel.name
     startingBalance := initialBalance
     endingBalance := finalBalance
     totalReturn := totalReturn
     totalReturnPercent := (totalReturn / initialBalance) * 100
     totalTrades := trades.length
     winningTrades := w
     losingTrades := l
     winRate := if trades.length > 0 then ((w : ℚ) / (trades.length : ℚ)) * 100 else 0
     totalPnL := finalModel.state.totalPnL
     averageWin := if w > 0 then totalWins / (w : ℚ) else 0
     averageLoss := if l > 0 then totalLosses / (l : ℚ) else 0
     profitFactor :=
       if totalLosses > 0 then some (totalWins / totalLosses)
       else if totalWins > 0 then none else some 0
     maxDrawdown := L.maxDD
     maxDrawdownPercent := L.maxDDPct
     sharpe := sharpeOf sqrtFn L.bh
     trades := trades
     balanceHistory := L.bh
     dailyReturns := dailyReturnsOf L.bh initialBalance }, L.k)

/-- `results.reduce(best, results[0]) || null`. -/
def bestOf (results : List BacktestResult) : Option BacktestResult :=
  match results with
  | [] => none
  | r0 :: _ =>
    some (results.foldl
      (fun best cur => if cur.totalReturnPercent > best.totalReturnPercent then cur else best)
      r0)

def worstOf (results : List BacktestResult) : Option BacktestResult :=
  match results with
  | [] => none
  | r0 :: _ =>
    some (results.foldl
      (fun worst cur => if cur.totalReturnPercent < worst.totalReturnPercent then cur else worst)
      r0)

/-- The per-model result list: each model backtested independently, the
oracle counter threaded across models in order. -/
def btResults (env : ℕ → ℕ × ℕ) (sqrtFn : ℚ → ℚ) (models : List TradingModel)
    (historicalData : List MarketData) (initialBalance : ℚ)
    (use1MinuteData : Bool) : List BacktestResult :=
  (models.foldl
    (fun (a : List BacktestResult × ℕ) tmpl =>
      let r := backtestModel env sqrtFn tmpl historicalData initialBalance use1MinuteData a.2
      (a.1 ++ [r.1], r.2))
    ([], 0)).1

/-- The 1-minute-aware `runBacktest`: insufficient data (fewer than 20
bars) fails the whole run before any model is processed; otherwise each
model is backtested independently and the summary derived. -/
def runBacktest (env : ℕ → ℕ × ℕ) (sqrtFn : ℚ → ℚ) (models : List TradingModel)
    (historicalData : List MarketData) (initialBalance : ℚ)
    (use1MinuteData : Bool) : Except String BacktestSummary :=
  if historicalData.length < 20 then
    Except.error "Insufficient historical data for backtesting (need at least 20 bars)"
  else
    let results := btResults env sqrtFn models historicalData initialBalance use1MinuteData
    Except.ok
      { periodStart := (historicalData.headD default).timestamp
        periodEnd := (historicalData.getLastD default).timestamp
        totalBars := historicalData.length
        days := (historicalData.length + 95) / 96
        results := results
        bestModel := bestOf results
        worstModel := worstOf results
        averageReturn :=
          if results.length > 0 then
            (results.map fun r => r.totalReturnPercent).sum / (results.length : ℚ)
          else 0
        averageWinRate :=
          if results.length > 0 then
            (results.map fun r => r.winRate).sum / (results.length : ℚ)
          else 0 }

/-! ### Derived notions used by the statements -/

/-- The cost-basis equation of a position. -/
def posInv (p : Position) : Prop := p.totalCost = p.averagePrice * p.quantity

/-- Bar-to-bar changes of a price list. -/
def priceChanges (prices : List ℚ) : List ℚ :=
  (prices.zip prices.tail).map fun pr => pr.2 - pr.1

/-- Total gain over the price changes. -/
def gainSum (prices : List ℚ) : ℚ :=
  ((priceChanges prices).filter fun c => decide (c > 0)).sum

/-- Total loss (absolute) over the price changes. -/
def lossSum (prices : List ℚ) : ℚ :=
  (((priceChanges prices).filter fun c => decide (c < 0)).map fun c => |c|).sum

/-- Erase the oracle-derived parts of a trade record (clock and random
draw inside the id, and the wall-clock timestamp). -/
def eraseTrade (t : Trade) : Trade := { t with id := (t.id.1, 0, 0), timestamp := 0 }

def eraseState (st : ModelState) : ModelState :=
  { st with trades := st.trades.map eraseTrade }

def eraseModel (m : TradingModel) : TradingModel :=
  { m with state := eraseState m.state }

/-- Erase of a backtest result: oracle-derived trade parts and the
win/loss statistics computed from trade timestamps. -/
def eraseResult (r : BacktestResult) : BacktestResult :=
  { r with winningTrades := 0, losingTrades := 0, winRate := 0, averageWin := 0,
           averageLoss := 0, profitFactor := some 0,
           trades := r.trades.map eraseTrade }

def eraseSummary (s : BacktestSummary) : BacktestSummary :=
  { s with results := s.results.map eraseResult,
           bestModel := s.bestModel.map eraseResult,
           worstModel := s.worstModel.map eraseResult,
           averageWinRate := 0 }

/-! ### Concrete instances -/

def envZero : ℕ → ℕ × ℕ := fun _ => (0, 0)

def mkBar (p yes no : ℚ) (ts : ℕ) : MarketData :=
  { timestamp := ts, currentPrice := p, yesPrice := yes, noPrice := no,
    volume := 0, minuteCandles := [] }

def buyYes5Model : TradingModel :=
  { id := "always-yes", name := "always yes", state := initialModelState,
    makeDecision := fun _ _ => Except.ok ⟨TradeAction.BUY_YES, some 5⟩ }

def buyYesNoneModel : TradingModel :=
  { id := "yes-noqty", name := "yes without quantity", state := initialModelState,
    makeDecision := fun _ _ => Except.ok ⟨TradeAction.BUY_YES, none⟩ }

def throwModel : TradingModel :=
  { id := "thrower", name := "thrower", state := initialModelState,
    makeDecision := fun _ _ => Except.error () }

def stOnePos : ModelState :=
  { balance := 40,
    positions := [{ direction := MarketDirection.UP, quantity := 5,
                    averagePrice := 10, totalCost := 50 }],
    trades := [], totalPnL := 7, dailyReturn := 0 }

def sellModel : TradingModel :=
  { id := "seller", name := "seller", state := stOnePos,
    makeDecision := fun _ _ => Except.ok ⟨TradeAction.SELL, none⟩ }

def stBal200 : ModelState :=
  { balance := 200, positions := [], trades := [], totalPnL := 0, dailyReturn := 0 }

def expensiveBar : MarketData := mkBar 100 30 30 0

def cheapBar : MarketData := mkBar 100 30 70 0

def data25 : List MarketData :=
  (List.range 25).map fun (i : ℕ) =>
    mkBar (if i = 21 then 105 else 100) 50 50 (i * 900000)

def data15 : List MarketData :=
  (List.range 15).map fun (i : ℕ) => mkBar 100 50 50 (i * 900000)

def rsiHist15 : List MarketData :=
  (List.range 15).map fun (i : ℕ) => mkBar (100 - (i : ℚ)) 50 50 (i * 900000)

def rsiBar16 : MarketData := mkBar 85 50 50 13500000

def rsiHist14 : List MarketData :=
  (List.range 14).map fun (i : ℕ) => mkBar (100 - (i : ℚ)) 50 50 (i * 900000)

def rsiBar15 : MarketData := mkBar 86 50 50 12600000

def data22 : List MarketData :=
  (List.range 22).map fun (i : ℕ) =>
    mkBar (if i = 6 then 103 else if i ≥ 20 then 110 else 100) 10 10 (i * 900000)

def envA : ℕ → ℕ × ℕ := fun _ => (4500000, 1)

def envB : ℕ → ℕ × ℕ := fun _ => (1000000000000, 2)

def sqrtZ : ℚ → ℚ := fun _ => 0

def tenBar : MarketData := mkBar 100 10 90 0

def buyerWithPos : TradingModel :=
  { id := "buyer", name := "buyer",
    state := { balance := 100,
               positions := [{ direction := MarketDirection.UP, quantity := 5,
                               averagePrice := 10, totalCost := 50 }],
               trades := [], totalPnL := 0, dailyReturn := 0 },
    makeDecision := fun _ _ => Except.ok ⟨TradeAction.BUY_YES, some 5⟩ }


/-! ### Theorems

Batteries seals the rational operations against unfolding; concrete
evaluation in witnesses needs them reducible again. -/

attribute [local semireducible] Rat.add Rat.mul Rat.sub Rat.inv Rat.ofScientific

/-! #### Step characterization lemmas -/

theorem tradeStep_error (env : ℕ → ℕ × ℕ) (md : MarketData) (h : List MarketData)
    (m : TradingModel) (k : ℕ) (e : Unit) (he : m.makeDecision md h = Except.error e) :
    tradeStep env md h m k = (m, k) := by
  unfold tradeStep
  rw [he]

theorem tradeStep_hold (env : ℕ → ℕ × ℕ) (md : MarketData) (h : List MarketData)
    (m : TradingModel) (k : ℕ) (d : Decision) (hd : m.makeDecision md h = Except.ok d)
    (ha : d.action = TradeAction.HOLD) :
    tradeStep env md h m k = (m, k) := by
  obtain ⟨da, dq⟩ := d
  subst ha
  unfold tradeStep
  rw [hd]

theorem tradeStep_sell (env : ℕ → ℕ × ℕ) (md : MarketData) (h : List MarketData)
    (m : TradingModel) (k : ℕ) (d : Decision) (hd : m.makeDecision md h = Except.ok d)
    (ha : d.action = TradeAction.SELL) :
    tradeStep env md h m k = ({ m with state := closePositions m.state }, k) := by
  obtain ⟨da, dq⟩ := d
  subst ha
  unfold tradeStep
  rw [hd]

theorem tradeStep_buy (env : ℕ → ℕ × ℕ) (md : MarketData) (h : List MarketData)
    (m : TradingModel) (k : ℕ) (d : Decision) (hd : m.makeDecision md h = Except.ok d)
    (ha : d.action = TradeAction.BUY_YES ∨ d.action = TradeAction.BUY_NO) :
    tradeStep env md h m k = buyStep env md m k d.action d.quantity := by
  obtain ⟨da, dq⟩ := d
  rcases ha with ha | ha <;>
  · subst ha
    unfold tradeStep
    rw [hd]

theorem buyStep_executes (env : ℕ → ℕ × ℕ) (md : MarketData) (m : TradingModel)
    (k : ℕ) (a : TradeAction) (qopt : Option ℚ)
    (hle : buyPrice a md * effQuantity qopt ≤ m.state.balance) :
    buyStep env md m k a qopt =
      ({ m with
         state := executeTrade env k m.id (buyDirection a) (buyPrice a md)
           (effQuantity qopt) (buyPrice a md * effQuantity qopt) m.state }, k + 1) := by
  unfold buyStep
  rw [if_pos hle]

theorem buyStep_drops (env : ℕ → ℕ × ℕ) (md : MarketData) (m : TradingModel)
    (k : ℕ) (a : TradeAction) (qopt : Option ℚ)
    (hgt : m.state.balance < buyPrice a md * effQuantity qopt) :
    buyStep env md m k a qopt = (m, k) := by
  unfold buyStep
  rw [if_neg (not_le.mpr hgt)]

/-! #### Claim C1 -/

/-- C1: a BUY_YES/BUY_NO decision executes only when its cost
(execution price × quantity) is at most the strategy's balance; on
execution the balance is debited by exactly the cost (hence stays
nonnegative), the trade record is appended and the matching-direction
position updated; a decision whose cost exceeds the balance leaves the
model completely unchanged — no debit, no trade append, no position
change, no partial execution. -/
theorem c1_buy_requires_balance (env : ℕ → ℕ × ℕ) (k : ℕ) (m : TradingModel)
    (md : MarketData) (h : List MarketData) (d : Decision)
    (hd : m.makeDecision md h = Except.ok d)
    (ha : d.action = TradeAction.BUY_YES ∨ d.action = TradeAction.BUY_NO) :
    (buyPrice d.action md * effQuantity d.quantity ≤ m.state.balance →
      (tradeStep env md h m k).1.state.balance
          = m.state.balance - buyPrice d.action md * effQuantity d.quantity
        ∧ 0 ≤ (tradeStep env md h m k).1.state.balance
        ∧ (tradeStep env md h m k).1.state.trades
            = m.state.trades ++
              [{ id := (m.id, (env k).1, (env k).2), timestamp := (env k).1,
                 direction := buyDirection d.action, price := buyPrice d.action md,
                 quantity := effQuantity d.quantity,
                 cost := buyPrice d.action md * effQuantity d.quantity }]
        ∧ (tradeStep env md h m k).1.state.positions
            = updateFirst (buyDirection d.action) (buyPrice d.action md)
                (effQuantity d.quantity)
                (buyPrice d.action md * effQuantity d.quantity) m.state.positions)
    ∧ (m.state.balance < buyPrice d.action md * effQuantity d.quantity →
        (tradeStep env md h m k).1 = m) := by
  constructor
  · intro hle
    rw [tradeStep_buy env md h m k d hd ha,
        buyStep_executes env md m k d.action d.quantity hle]
    refine ⟨rfl, ?_, rfl, rfl⟩
    show (0 : ℚ) ≤ m.state.balance - buyPrice d.action md * effQuantity d.quantity
    linarith
  · intro hgt
    rw [tradeStep_buy env md h m k d hd ha,
        buyStep_drops env md m k d.action d.quantity hgt]

/-- Witness for C1: the spec scenario — a trade costing 150 (yes price 30,
quantity 5) against a balance of 100 does not execute; the model is
untouched and its balance stays 100. -/
theorem c1_buy_requires_balance_witness :
    (tradeStep envZero expensiveBar [] buyYes5Model 0).1 = buyYes5Model
      ∧ buyYes5Model.state.balance = 100 :=
  ⟨(c1_buy_requires_balance envZero 0 buyYes5Model expensiveBar []
      ⟨TradeAction.BUY_YES, some 5⟩ rfl (Or.inl rfl)).2 (by decide), rfl⟩

/-! #### Claim C10 -/

/-- C10: a BUY decision with an absent (or zero) quantity field defaults
to quantity 1: the cost is the bar price times 1, and provided that cost
fits the balance the trade executes with quantity 1 — the decision is not
treated as HOLD and not rejected for lacking a quantity. -/
theorem c10_default_quantity_one (env : ℕ → ℕ × ℕ) (k : ℕ) (m : TradingModel)
    (md : MarketData) (h : List MarketData) (d : Decision)
    (hd : m.makeDecision md h = Except.ok d)
    (ha : d.action = TradeAction.BUY_YES ∨ d.action = TradeAction.BUY_NO)
    (hq : d.quantity = none ∨ d.quantity = some 0) :
    effQuantity d.quantity = 1
    ∧ (buyPrice d.action md * 1 ≤ m.state.balance →
        (tradeStep env md h m k).1.state.balance
            = m.state.balance - buyPrice d.action md * 1
          ∧ (tradeStep env md h m k).1.state.trades
              = m.state.trades ++
                [{ id := (m.id, (env k).1, (env k).2), timestamp := (env k).1,
                   direction := buyDirection d.action, price := buyPrice d.action md,
                   quantity := 1, cost := buyPrice d.action md * 1 }]) := by
  have h1 : effQuantity d.quantity = 1 := by
    rcases hq with hq | hq <;> simp [hq, effQuantity]
  refine ⟨h1, fun hle => ?_⟩
  have hle' : buyPrice d.action md * effQuantity d.quantity ≤ m.state.balance := by
    rw [h1]
    exact hle
  rw [tradeStep_buy env md h m k d hd ha,
      buyStep_executes env md m k d.action d.quantity hle', h1]
  exact ⟨rfl, rfl⟩

/-- Witness for C10: a BUY_YES carrying no quantity, at yes price 30
against balance 100, executes with quantity 1 and cost 30. -/
theorem c10_default_quantity_one_witness :
    effQuantity (none : Option ℚ) = 1
    ∧ (tradeStep envZero cheapBar [] buyYesNoneModel 0).1.state.balance = 70
    ∧ (tradeStep envZero cheapBar [] buyYesNoneModel 0).1.state.trades
        = [{ id := ("yes-noqty", 0, 0), timestamp := 0,
             direction := MarketDirection.UP, price := 30, quantity := 1,
             cost := 30 * 1 }] := by
  have h := c10_default_quantity_one envZero 0 buyYesNoneModel cheapBar []
    ⟨TradeAction.BUY_YES, none⟩ rfl (Or.inl rfl) (Or.inl rfl)
  have h2 := h.2 (by decide)
  refine ⟨h.1, ?_, ?_⟩
  · rw [h2.1]
    decide
  · rw [h2.2]
    decide

/-! #### Fold characterizations of closing and settling -/

theorem close_fold (l : List Position) (a b : ℚ) :
    l.foldl
      (fun (x : ℚ × ℚ) p =>
        let exitValue := p.averagePrice * p.quantity
        (x.1 + (exitValue - p.totalCost), x.2 + exitValue)) (a, b)
      = (a + (l.map fun p => p.averagePrice * p.quantity - p.totalCost).sum,
         b + (l.map fun p => p.averagePrice * p.quantity).sum) := by
  induction l generalizing a b with
  | nil => simp
  | cons p ps ih =>
    simp only [List.foldl_cons, List.map_cons, List.sum_cons]
    rw [ih]
    simp only [Prod.mk.injEq]
    constructor <;> ring

theorem settle_fold (bar : MarketData) (l : List Position) (a b : ℚ) :
    l.foldl
      (fun (x : ℚ × ℚ) p =>
        let exitValue := dirPrice bar p.direction * p.quantity
        (x.1 + (exitValue - p.totalCost), x.2 + exitValue)) (a, b)
      = (a + (l.map fun p => dirPrice bar p.direction * p.quantity - p.totalCost).sum,
         b + (l.map fun p => dirPrice bar p.direction * p.quantity).sum) := by
  induction l generalizing a b with
  | nil => simp
  | cons p ps ih =>
    simp only [List.foldl_cons, List.map_cons, List.sum_cons]
    rw [ih]
    simp only [Prod.mk.injEq]
    constructor <;> ring

theorem closePositions_spec (st : ModelState) :
    closePositions st =
      { st with
        balance := st.balance + (st.positions.map fun p => p.averagePrice * p.quantity).sum
        totalPnL := st.totalPnL + (st.positions.map fun p => p.averagePrice * p.quantity - p.totalCost).sum
        positions := [] } := by
  unfold closePositions
  rw [close_fold st.positions 0 st.balance]
  simp

theorem settleModelState_spec (bar : MarketData) (st : ModelState) :
    settleModelState bar st =
      { st with
        balance := st.balance + (st.positions.map fun p => dirPrice bar p.direction * p.quantity).sum
        totalPnL := st.totalPnL + (st.positions.map fun p => dirPrice bar p.direction * p.quantity - p.totalCost).sum
        dailyReturn :=
          ((st.balance + (st.positions.map fun p => dirPrice bar p.direction * p.quantity).sum - 100) / 100) * 100
        positions := [] } := by
  unfold settleModelState
  rw [settle_fold bar st.positions 0 st.balance]
  simp

/-! #### Claim C7 -/

/-- C7: under the cost-basis invariant, a SELL decision closes every open
position at its own average entry price: the balance is credited with
Σ averagePrice·quantity, the realized delta Σ(averagePrice·quantity −
totalCost) is exactly zero, so the cumulative P&L is unchanged, and the
position list becomes empty; a SELL decision in the trading cycle does
exactly this via `closePositions`. -/
theorem c7_sell_closes_at_average (st : ModelState)
    (hinv : List.Forall posInv st.positions) :
    (closePositions st).balance
        = st.balance + (st.positions.map fun p => p.averagePrice * p.quantity).sum
    ∧ (st.positions.map fun p => p.averagePrice * p.quantity - p.totalCost).sum = 0
    ∧ (closePositions st).totalPnL = st.totalPnL
    ∧ (closePositions st).positions = []
    ∧ (∀ (env : ℕ → ℕ × ℕ) (k : ℕ) (m : TradingModel) (md : MarketData)
        (h : List MarketData) (d : Decision),
        m.makeDecision md h = Except.ok d → d.action = TradeAction.SELL →
        (tradeStep env md h m k).1.state = closePositions m.state) := by
  have hz : (st.positions.map fun p => p.averagePrice * p.quantity - p.totalCost).sum = 0 := by
    apply List.sum_eq_zero
    intro x hx
    rw [List.mem_map] at hx
    obtain ⟨p, hp, rfl⟩ := hx
    have hpi := List.forall_iff_forall_mem.mp hinv p hp
    unfold posInv at hpi
    linarith
  rw [closePositions_spec st]
  refine ⟨rfl, hz, ?_, rfl, ?_⟩
  · simp [hz]
  · intro env k m md h d hd ha
    rw [tradeStep_sell env md h m k d hd ha]

/-- Witness for C7: a strategy holding one UP position (5 contracts at
average price 10, cost basis 50) with balance 40 and cumulative P&L 7:
SELL credits 50, leaves the P&L at 7 and empties the positions. -/
theorem c7_sell_closes_at_average_witness :
    (closePositions stOnePos).balance = 90
    ∧ (closePositions stOnePos).totalPnL = 7
    ∧ (closePositions stOnePos).positions = []
    ∧ (tradeStep envZero cheapBar [] sellModel 0).1.state = closePositions stOnePos := by
  have h := c7_sell_closes_at_average stOnePos
    (by norm_num [List.Forall, stOnePos, posInv])
  refine ⟨?_, ?_, h.2.2.2.1, ?_⟩
  · rw [h.1]
    decide
  · rw [h.2.2.1]
    rfl
  · exact h.2.2.2.2 envZero 0 sellModel cheapBar [] ⟨TradeAction.SELL, none⟩ rfl rfl

/-! #### Claim C4 -/

/-- C4 (amended): for every strategy, `settlePositions` credits the
balance with exitValue = (settlement bar's yes price for UP positions, no
price for DOWN) × quantity for each open position, adds exitValue −
totalCost to the cumulative P&L, clears all positions, and recomputes the
daily-return percentage as (balance − 100)/100 × 100 — against the
hard-coded base 100 (the default starting balance), not the configured
starting balance of the run. -/
theorem c4_settle_credits_and_daily_return (bar : MarketData) (st : ModelState)
    (models : List TradingModel) :
    (settleModelState bar st).balance
        = st.balance + (st.positions.map fun p => dirPrice bar p.direction * p.quantity).sum
    ∧ (settleModelState bar st).totalPnL
        = st.totalPnL + (st.positions.map fun p => dirPrice bar p.direction * p.quantity - p.totalCost).sum
    ∧ (settleModelState bar st).positions = []
    ∧ (settleModelState bar st).dailyReturn
        = (((settleModelState bar st).balance - 100) / 100) * 100
    ∧ settlePositions bar models
        = models.map fun m => { m with state := settleModelState bar m.state } := by
  rw [settleModelState_spec bar st]
  exact ⟨rfl, rfl, rfl, rfl, rfl⟩

/-- C4 counterexample: in a run configured with starting balance 200 (the
state `backtestModel` seeds for `initialBalance = 200`), settling with no
open positions leaves the balance at 200, and the code computes the daily
return as ((200 − 100)/100) × 100 = 100, whereas the claim's formula
(balance − initialBalance)/initialBalance × 100 gives 0. -/
theorem c4_daily_return_counterexample :
    (settleModelState (mkBar 100 50 50 0) stBal200).balance = 200
    ∧ (settleModelState (mkBar 100 50 50 0) stBal200).dailyReturn = 100
    ∧ ((200 : ℚ) - 200) / 200 * 100 = 0
    ∧ (100 : ℚ) ≠ 0 := by
  refine ⟨by decide, by decide, by norm_num, by norm_num⟩

/-! #### Claim C2 -/

theorem updateFirst_inv (direction : MarketDirection) (price quantity cost : ℚ)
    (l : List Position)
    (hl : List.Forall (fun p => posInv p ∧ 0 < p.quantity) l)
    (hq : 0 < quantity) (hc : cost = price * quantity) :
    List.Forall (fun p => posInv p ∧ 0 < p.quantity)
      (updateFirst direction price quantity cost l) := by
  induction l with
  | nil =>
    unfold updateFirst
    rw [List.forall_cons]
    refine ⟨⟨?_, hq⟩, trivial⟩
    show cost = price * quantity
    exact hc
  | cons p ps ih =>
    rw [List.forall_cons] at hl
    obtain ⟨⟨hpi, hpq⟩, hps⟩ := hl
    unfold updateFirst
    by_cases hd : p.direction = direction
    · rw [if_pos hd, List.forall_cons]
      refine ⟨⟨?_, add_pos hpq hq⟩, hps⟩
      show p.totalCost + cost
          = (p.totalCost + cost) / (p.quantity + quantity) * (p.quantity + quantity)
      exact (div_mul_cancel₀ _ (ne_of_gt (add_pos hpq hq))).symm
    · rw [if_neg hd, List.forall_cons]
      exact ⟨⟨hpi, hpq⟩, ih hps⟩

/-- C2: the equation totalCost = averagePrice × quantity holds of every
open position after every state-mutating operation — a trading-cycle step
(trade execution creating a position or averaging into one, under
positive trade quantities), closing on SELL, and settlement — exactly,
since the embedding computes in ℚ. -/
theorem c2_position_cost_invariant (env : ℕ → ℕ × ℕ) (k : ℕ) (m : TradingModel)
    (md : MarketData) (h : List MarketData) (st : ModelState) (bar : MarketData) :
    (List.Forall (fun p => posInv p ∧ 0 < p.quantity) m.state.positions →
      (∀ d, m.makeDecision md h = Except.ok d → 0 < effQuantity d.quantity) →
      List.Forall (fun p => posInv p ∧ 0 < p.quantity)
        (tradeStep env md h m k).1.state.positions)
    ∧ List.Forall posInv (closePositions st).positions
    ∧ List.Forall posInv (settleModelState bar st).positions := by
  refine ⟨?_, ?_, ?_⟩
  · intro hl hq
    cases hres : m.makeDecision md h with
    | error e =>
      rw [tradeStep_error env md h m k e hres]
      exact hl
    | ok d =>
      obtain ⟨da, dq⟩ := d
      have hq5 : 0 < effQuantity dq := hq ⟨da, dq⟩ hres
      cases da with
      | HOLD =>
        rw [tradeStep_hold env md h m k ⟨TradeAction.HOLD, dq⟩ hres rfl]
        exact hl
      | SELL =>
        rw [tradeStep_sell env md h m k ⟨TradeAction.SELL, dq⟩ hres rfl]
        show List.Forall _ (closePositions m.state).positions
        rw [closePositions_spec]
        trivial
      | BUY_YES =>
        rw [tradeStep_buy env md h m k ⟨TradeAction.BUY_YES, dq⟩ hres (Or.inl rfl)]
        by_cases hc : buyPrice TradeAction.BUY_YES md * effQuantity dq ≤ m.state.balance
        · rw [buyStep_executes env md m k TradeAction.BUY_YES dq hc]
          exact updateFirst_inv (buyDirection TradeAction.BUY_YES)
            (buyPrice TradeAction.BUY_YES md) (effQuantity dq)
            (buyPrice TradeAction.BUY_YES md * effQuantity dq) m.state.positions hl hq5 rfl
        · rw [buyStep_drops env md m k TradeAction.BUY_YES dq (not_le.mp hc)]
          exact hl
      | BUY_NO =>
        rw [tradeStep_buy env md h m k ⟨TradeAction.BUY_NO, dq⟩ hres (Or.inr rfl)]
        by_cases hc : buyPrice TradeAction.BUY_NO md * effQuantity dq ≤ m.state.balance
        · rw [buyStep_executes env md m k TradeAction.BUY_NO dq hc]
          exact updateFirst_inv (buyDirection TradeAction.BUY_NO)
            (buyPrice TradeAction.BUY_NO md) (effQuantity dq)
            (buyPrice TradeAction.BUY_NO md * effQuantity dq) m.state.positions hl hq5 rfl
        · rw [buyStep_drops env md m k TradeAction.BUY_NO dq (not_le.mp hc)]
          exact hl
  · rw [closePositions_spec]
    trivial
  · rw [settleModelState_spec]
    trivial

/-- Witness for C2: a strategy holding an UP position (5 at average 10,
cost 50) buys 5 more at yes price 10; the averaged position still
satisfies totalCost = averagePrice × quantity with positive quantity. -/
theorem c2_position_cost_invariant_witness :
    List.Forall (fun p => posInv p ∧ 0 < p.quantity)
      (tradeStep envZero tenBar [] buyerWithPos 0).1.state.positions :=
  (c2_position_cost_invariant envZero 0 buyerWithPos tenBar [] initialModelState tenBar).1
    (by norm_num [List.Forall, buyerWithPos, posInv])
    (fun d hd => by
      injection hd with hd2
      rw [← hd2]
      norm_num [effQuantity])

/-! #### Claim C6 -/

/-- C6: when one strategy's decision function throws, the error is caught
for that strategy alone: the cycle over `pre ++ m :: post` leaves `m`
exactly as it was, does not abort — every strategy of `pre` and `post` is
still processed — and the others' outcomes are exactly those of cycling
`pre` and `post` by themselves (the failing strategy consumes no oracle
value and touches no other state). -/
theorem c6_decision_error_isolated (env : ℕ → ℕ × ℕ) (md : MarketData)
    (h : List MarketData) (pre post : List TradingModel) (m : TradingModel) (k : ℕ)
    (he : m.makeDecision md h = Except.error ()) :
    cycleModels env md h (pre ++ m :: post) k
      = ((cycleModels env md h pre k).1
          ++ m :: (cycleModels env md h post (cycleModels env md h pre k).2).1,
         (cycleModels env md h post (cycleModels env md h pre k).2).2) := by
  induction pre generalizing k with
  | nil =>
    simp only [List.nil_append, cycleModels, tradeStep_error env md h m k () he]
  | cons p ps ih =>
    simp only [List.cons_append, cycleModels, List.append_eq, ih]

/-- Witness for C6: cycling [trading model, throwing model, trading model]
equals the throwing model sandwiched unchanged between the cycles of the
two sound models. -/
theorem c6_decision_error_isolated_witness :
    cycleModels envZero tenBar [] [buyYes5Model, throwModel, buyYesNoneModel] 0
      = ((cycleModels envZero tenBar [] [buyYes5Model] 0).1
          ++ throwModel :: (cycleModels envZero tenBar [] [buyYesNoneModel]
              (cycleModels envZero tenBar [] [buyYes5Model] 0).2).1,
         (cycleModels envZero tenBar [] [buyYesNoneModel]
             (cycleModels envZero tenBar [] [buyYes5Model] 0).2).2) :=
  c6_decision_error_isolated envZero tenBar [] [buyYes5Model] [buyYesNoneModel]
    throwModel 0 rfl

/-! #### Claim C3 -/

/-- C3: in the backtest, the bar used to settle the cycle at index `i` is,
except on the final bar, derived from the next bar's realized movement:
any strictly positive move forces yesPrice 100 / noPrice 0 (UP positions
win, DOWN positions lose), any strictly negative move forces yesPrice 0 /
noPrice 100, and a flat move also settles NO as the winner; on the final
bar the last known bar is used as-is. -/
theorem c3_settlement_policy (data : List MarketData) (i : ℕ) :
    (i + 1 < data.length → 0 < (data.getD i default).currentPrice →
      ((data.getD i default).currentPrice < (data.getD (i + 1) default).currentPrice →
        settleBarAt data i
          = { data.getD (i + 1) default with yesPrice := 100, noPrice := 0 })
      ∧ ((data.getD (i + 1) default).currentPrice < (data.getD i default).currentPrice →
        settleBarAt data i
          = { data.getD (i + 1) default with yesPrice := 0, noPrice := 100 })
      ∧ ((data.getD (i + 1) default).currentPrice = (data.getD i default).currentPrice →
        settleBarAt data i
          = { data.getD (i + 1) default with yesPrice := 0, noPrice := 100 }))
    ∧ (i + 1 = data.length → settleBarAt data i = data.getD i default) := by
  constructor
  · intro hlen hpos
    have hcond : i < data.length - 1 := by omega
    unfold settleBarAt
    rw [if_pos hcond]
    simp only [settlementDataFor]
    refine ⟨?_, ?_, ?_⟩
    · intro hup
      have h1 : (0:ℚ) < ((data.getD (i + 1) default).currentPrice
          - (data.getD i default).currentPrice) / (data.getD i default).currentPrice * 100 :=
        mul_pos (div_pos (by linarith) hpos) (by norm_num)
      rw [if_pos h1, if_neg (not_le.mpr h1)]
    · intro hdown
      have h1 : ((data.getD (i + 1) default).currentPrice
          - (data.getD i default).currentPrice) / (data.getD i default).currentPrice * 100 < 0 :=
        mul_neg_of_neg_of_pos (div_neg_of_neg_of_pos (by linarith) hpos) (by norm_num)
      rw [if_neg (not_lt.mpr (le_of_lt h1)), if_pos (le_of_lt h1)]
    · intro heq
      have h1 : ((data.getD (i + 1) default).currentPrice
          - (data.getD i default).currentPrice) / (data.getD i default).currentPrice * 100 = 0 := by
        rw [heq]
        simp
      rw [h1]
      norm_num
  · intro hlast
    unfold settleBarAt
    rw [if_neg (by omega)]

/-- Witness for C3: a 25-bar series whose bar 21 (price 105) exceeds bar
20 (price 100): the settlement for cycle 20 carries yesPrice 100 and
noPrice 0 — UP positions win, DOWN positions lose. -/
theorem c3_settlement_policy_witness :
    settleBarAt data25 20 = { data25.getD 21 default with yesPrice := 100, noPrice := 0 }
      ∧ data25.length = 25 := by
  refine ⟨((c3_settlement_policy data25 20).1 (by decide) (by decide)).1 (by decide), by decide⟩

/-! #### Claim C5 -/

/-- C5: a backtest over fewer than 20 bars fails with the distinct
insufficient-data error before any strategy is processed — whatever the
models, the starting balance or the data flags — and produces no
summary and no partial per-strategy result. -/
theorem c5_insufficient_data_error (env : ℕ → ℕ × ℕ) (sqrtFn : ℚ → ℚ)
    (models : List TradingModel) (data : List MarketData) (init : ℚ) (flag : Bool)
    (hlen : data.length < 20) :
    runBacktest env sqrtFn models data init flag
      = Except.error "Insufficient historical data for backtesting (need at least 20 bars)" := by
  unfold runBacktest
  rw [if_pos hlen]

/-- Witness for C5: the spec scenario — a 15-bar series fails with the
insufficient-data error. -/
theorem c5_insufficient_data_error_witness :
    runBacktest envZero sqrtZ (deterministicModels sqrtZ) data15 100 true
      = Except.error "Insufficient historical data for backtesting (need at least 20 bars)" :=
  c5_insufficient_data_error envZero sqrtZ (deterministicModels sqrtZ) data15 100 true
    (by decide)

/-! #### Claim C8 -/

theorem avg_if (l : List ℚ) (c : ℚ) :
    (if l.length > 0 then l.sum / c else 0) = l.sum / c := by
  by_cases hl : l.length > 0
  · rw [if_pos hl]
  · rw [if_neg hl]
    have hnil : l = [] := List.length_eq_zero.mp (by omega)
    rw [hnil]
    simp

theorem rsiMakeDecision_minute (md : MarketData) (h : List MarketData)
    (hm : md.minuteCandles.length > 0) :
    rsiMakeDecision md h
      = if (subBarPrices md h).length < 15 then Except.ok ⟨TradeAction.HOLD, none⟩
        else Except.ok (rsiSignal (calculateRSI (subBarPrices md h) 14)) := by
  unfold rsiMakeDecision
  rw [if_pos hm]

theorem rsiMakeDecision_fallback_short (md : MarketData) (h : List MarketData)
    (hm : md.minuteCandles.length = 0) (hh : h.length < 15) :
    rsiMakeDecision md h = Except.ok ⟨TradeAction.HOLD, none⟩ := by
  unfold rsiMakeDecision
  rw [if_neg (by omega), if_pos hh]

theorem rsiMakeDecision_fallback (md : MarketData) (h : List MarketData)
    (hm : md.minuteCandles.length = 0) (hh : 15 ≤ h.length) :
    rsiMakeDecision md h
      = Except.ok (rsiSignal
          (calculateRSI ((h.map fun d => d.currentPrice) ++ [md.currentPrice]) 14)) := by
  unfold rsiMakeDecision
  rw [if_neg (by omega), if_neg (by omega)]
  show (if ((h.map fun d => d.currentPrice) ++ [md.currentPrice]).length < 15
        then Except.ok ⟨TradeAction.HOLD, none⟩
        else Except.ok (rsiSignal
          (calculateRSI ((h.map fun d => d.currentPrice) ++ [md.currentPrice]) 14)))
      = Except.ok (rsiSignal
          (calculateRSI ((h.map fun d => d.currentPrice) ++ [md.currentPrice]) 14))
  rw [if_neg (by simp only [List.length_append, List.length_map]; omega)]

theorem calculateRSI_formula (prices : List ℚ) (hlen : 15 ≤ prices.length) :
    (lossSum prices = 0 → calculateRSI prices 14 = 100)
    ∧ (lossSum prices ≠ 0 →
        calculateRSI prices 14
          = 100 - 100 / (1 + (gainSum prices / 14) / (lossSum prices / 14))) := by
  unfold calculateRSI
  rw [if_neg (by omega)]
  simp only [avg_if]
  unfold lossSum gainSum priceChanges
  constructor
  · intro h0
    rw [if_pos (by rw [h0]; simp)]
  · intro h0
    rw [if_neg (div_ne_zero h0 (by norm_num))]
    norm_num

/-- C8 (amended): the RSI strategy holds when fewer than 15 assembled
price points are available and, in the bar-level fallback path, already
when fewer than 15 history bars are present (even though assembly would
then still yield 15 points); otherwise it computes the 14-period RSI of
the assembled prices — 100 when the total loss over the changes is zero,
else 100 − 100/(1+RS) with RS the ratio of the per-period average gain to
the average loss — and trades BUY_NO quantity 5 above 70, BUY_YES
quantity 5 below 30, and holds in between.  In particular a 16-point
strictly decreasing constant-step series yields RSI < 30 and BUY_YES
quantity 5. -/
theorem c8_rsi_decision_amended (md : MarketData) (h : List MarketData)
    (prices : List ℚ) (x : ℚ) :
    (md.minuteCandles.length > 0 →
      ((subBarPrices md h).length < 15 →
        rsiMakeDecision md h = Except.ok ⟨TradeAction.HOLD, none⟩)
      ∧ (15 ≤ (subBarPrices md h).length →
        rsiMakeDecision md h
          = Except.ok (rsiSignal (calculateRSI (subBarPrices md h) 14))))
    ∧ (md.minuteCandles.length = 0 →
      (h.length < 15 → rsiMakeDecision md h = Except.ok ⟨TradeAction.HOLD, none⟩)
      ∧ (15 ≤ h.length →
        rsiMakeDecision md h
          = Except.ok (rsiSignal
              (calculateRSI ((h.map fun d => d.currentPrice) ++ [md.currentPrice]) 14))))
    ∧ ((70 < x → rsiSignal x = ⟨TradeAction.BUY_NO, some 5⟩)
      ∧ (x < 30 → rsiSignal x = ⟨TradeAction.BUY_YES, some 5⟩)
      ∧ (30 ≤ x → x ≤ 70 → rsiSignal x = ⟨TradeAction.HOLD, none⟩))
    ∧ (15 ≤ prices.length →
      (lossSum prices = 0 → calculateRSI prices 14 = 100)
      ∧ (lossSum prices ≠ 0 →
        calculateRSI prices 14
          = 100 - 100 / (1 + (gainSum prices / 14) / (lossSum prices / 14))))
    ∧ (calculateRSI ((rsiHist15.map fun d => d.currentPrice) ++ [rsiBar16.currentPrice]) 14 < 30
      ∧ rsiMakeDecision rsiBar16 rsiHist15 = Except.ok ⟨TradeAction.BUY_YES, some 5⟩) := by
  refine ⟨?_, ?_, ?_, calculateRSI_formula prices, by decide, by rfl⟩
  · intro hm
    rw [rsiMakeDecision_minute md h hm]
    constructor
    · intro hlt
      rw [if_pos hlt]
    · intro hge
      rw [if_neg (not_lt.mpr hge)]
  · intro hm
    exact ⟨rsiMakeDecision_fallback_short md h hm, rsiMakeDecision_fallback md h hm⟩
  · refine ⟨?_, ?_, ?_⟩
    · intro h70
      unfold rsiSignal
      rw [if_pos h70]
    · intro h30
      unfold rsiSignal
      rw [if_neg (by linarith), if_pos h30]
    · intro hge hle
      unfold rsiSignal
      rw [if_neg (by linarith), if_neg (by linarith)]

/-- C8 counterexample to the claim as stated: with no sub-bar candles and
exactly 14 history bars, the assembled price list (history plus current
bar) has 15 points and its RSI is 0 < 30, yet the strategy returns HOLD —
the claim's "otherwise" clause demands BUY_YES quantity 5 here. -/
theorem c8_rsi_boundary_counterexample :
    rsiMakeDecision rsiBar15 rsiHist14 = Except.ok ⟨TradeAction.HOLD, none⟩
    ∧ ((rsiHist14.map fun d => d.currentPrice) ++ [rsiBar15.currentPrice]).length = 15
    ∧ calculateRSI ((rsiHist14.map fun d => d.currentPrice) ++ [rsiBar15.currentPrice]) 14 < 30 := by
  refine ⟨by rfl, by decide, by decide⟩

/-- Witness for C8: the 16-point strictly decreasing series (prices 100
down to 85, constant step 1, no sub-bar candles): the decision is
computed from the assembled RSI and equals BUY_YES with quantity 5. -/
theorem c8_rsi_decision_amended_witness :
    rsiMakeDecision rsiBar16 rsiHist15
      = Except.ok (rsiSignal
          (calculateRSI ((rsiHist15.map fun d => d.currentPrice) ++ [rsiBar16.currentPrice]) 14))
    ∧ rsiMakeDecision rsiBar16 rsiHist15 = Except.ok ⟨TradeAction.BUY_YES, some 5⟩ :=
  ⟨((c8_rsi_decision_amended rsiBar16 rsiHist15 [] 0).2.1 (by decide)).2 (by decide),
   ((c8_rsi_decision_amended rsiBar16 rsiHist15 [] 0).2.2.2.2).2⟩

/-! #### Claim C9: erasure infrastructure -/

theorem eraseTrade_idem (t : Trade) : eraseTrade (eraseTrade t) = eraseTrade t := rfl

theorem eraseState_balance (st : ModelState) : (eraseState st).balance = st.balance := rfl

theorem eraseState_positions (st : ModelState) :
    (eraseState st).positions = st.positions := rfl

theorem eraseState_totalPnL (st : ModelState) : (eraseState st).totalPnL = st.totalPnL := rfl

theorem closePositions_erase (st : ModelState) :
    closePositions (eraseState st) = eraseState (closePositions st) := by
  rw [closePositions_spec, closePositions_spec]
  unfold eraseState
  rfl

theorem settleModelState_erase (bar : MarketData) (st : ModelState) :
    settleModelState bar (eraseState st) = eraseState (settleModelState bar st) := by
  rw [settleModelState_spec, settleModelState_spec]
  unfold eraseState
  rfl

theorem executeTrade_erase (env : ℕ → ℕ × ℕ) (k : ℕ) (j : ℕ) (modelId : String)
    (direction : MarketDirection) (price quantity cost : ℚ) (st : ModelState) :
    executeTrade envZero j modelId direction price quantity cost (eraseState st)
      = eraseState (executeTrade env k modelId direction price quantity cost st) := by
  unfold executeTrade eraseState
  simp [List.map_append, eraseTrade, envZero]

theorem eraseModel_state (m : TradingModel) : (eraseModel m).state = eraseState m.state := rfl

theorem eraseModel_makeDecision (m : TradingModel) :
    (eraseModel m).makeDecision = m.makeDecision := rfl

theorem tradeStep_erase (env : ℕ → ℕ × ℕ) (md : MarketData) (h : List MarketData)
    (m : TradingModel) (k j : ℕ) :
    (tradeStep envZero md h (eraseModel m) j).1 = eraseModel (tradeStep env md h m k).1 := by
  cases hres : m.makeDecision md h with
  | error e =>
    rw [tradeStep_error envZero md h (eraseModel m) j e hres,
        tradeStep_error env md h m k e hres]
  | ok d =>
    obtain ⟨da, dq⟩ := d
    cases da with
    | HOLD =>
      rw [tradeStep_hold envZero md h (eraseModel m) j ⟨TradeAction.HOLD, dq⟩ hres rfl,
          tradeStep_hold env md h m k ⟨TradeAction.HOLD, dq⟩ hres rfl]
    | SELL =>
      rw [tradeStep_sell envZero md h (eraseModel m) j ⟨TradeAction.SELL, dq⟩ hres rfl,
          tradeStep_sell env md h m k ⟨TradeAction.SELL, dq⟩ hres rfl]
      show ({ m with state := closePositions (eraseState m.state) } : TradingModel)
          = { m with state := eraseState (closePositions m.state) }
      rw [closePositions_erase]
    | BUY_YES =>
      rw [tradeStep_buy envZero md h (eraseModel m) j ⟨TradeAction.BUY_YES, dq⟩ hres (Or.inl rfl),
          tradeStep_buy env md h m k ⟨TradeAction.BUY_YES, dq⟩ hres (Or.inl rfl)]
      simp only [buyStep]
      by_cases hc : buyPrice TradeAction.BUY_YES md * effQuantity dq ≤ m.state.balance
      · have hc' : buyPrice TradeAction.BUY_YES md * effQuantity dq
            ≤ (eraseModel m).state.balance := hc
        rw [if_pos hc', if_pos hc]
        show ({ m with state := (executeTrade envZero j m.id (buyDirection TradeAction.BUY_YES)
            (buyPrice TradeAction.BUY_YES md) (effQuantity dq)
            (buyPrice TradeAction.BUY_YES md * effQuantity dq) (eraseState m.state)) } : TradingModel)
          = { m with state := eraseState (executeTrade env k m.id (buyDirection TradeAction.BUY_YES)
              (buyPrice TradeAction.BUY_YES md) (effQuantity dq)
              (buyPrice TradeAction.BUY_YES md * effQuantity dq) m.state) }
        rw [executeTrade_erase]
      · have hc' : ¬ buyPrice TradeAction.BUY_YES md * effQuantity dq
            ≤ (eraseModel m).state.balance := hc
        rw [if_neg hc', if_neg hc]
    | BUY_NO =>
      rw [tradeStep_buy envZero md h (eraseModel m) j ⟨TradeAction.BUY_NO, dq⟩ hres (Or.inr rfl),
          tradeStep_buy env md h m k ⟨TradeAction.BUY_NO, dq⟩ hres (Or.inr rfl)]
      simp only [buyStep]
      by_cases hc : buyPrice TradeAction.BUY_NO md * effQuantity dq ≤ m.state.balance
      · have hc' : buyPrice TradeAction.BUY_NO md * effQuantity dq
            ≤ (eraseModel m).state.balance := hc
        rw [if_pos hc', if_pos hc]
        show ({ m with state := (executeTrade envZero j m.id (buyDirection TradeAction.BUY_NO)
            (buyPrice TradeAction.BUY_NO md) (effQuantity dq)
            (buyPrice TradeAction.BUY_NO md * effQuantity dq) (eraseState m.state)) } : TradingModel)
          = { m with state := eraseState (executeTrade env k m.id (buyDirection TradeAction.BUY_NO)
              (buyPrice TradeAction.BUY_NO md) (effQuantity dq)
              (buyPrice TradeAction.BUY_NO md * effQuantity dq) m.state) }
        rw [executeTrade_erase]
      · have hc' : ¬ buyPrice TradeAction.BUY_NO md * effQuantity dq
            ≤ (eraseModel m).state.balance := hc
        rw [if_neg hc', if_neg hc]

theorem cycleModels_erase (env : ℕ → ℕ × ℕ) (md : MarketData) (h : List MarketData) :
    ∀ (ms : List TradingModel) (k j : ℕ),
    (cycleModels envZero md h (ms.map eraseModel) j).1
      = ((cycleModels env md h ms k).1).map eraseModel
  | [], _, _ => rfl
  | m :: ms, k, j => by
    simp only [List.map_cons, cycleModels]
    rw [tradeStep_erase env md h m k j,
        cycleModels_erase env md h ms (tradeStep env md h m k).2
          (tradeStep envZero md h (eraseModel m) j).2]

theorem settleModel_erase_model (bar : MarketData) (m : TradingModel) :
    ({ eraseModel m with state := settleModelState bar (eraseModel m).state } : TradingModel)
      = eraseModel { m with state := settleModelState bar m.state } := by
  show ({ m with state := settleModelState bar (eraseState m.state) } : TradingModel)
      = { m with state := eraseState (settleModelState bar m.state) }
  rw [settleModelState_erase]

theorem backtestStep_erase (env : ℕ → ℕ × ℕ) (data : List MarketData) (u : Bool)
    (i : ℕ) (st stz : BtLoop)
    (hm : stz.model = eraseModel st.model) (hbh : stz.bh = st.bh)
    (hp : stz.peak = st.peak) (hd1 : stz.maxDD = st.maxDD)
    (hd2 : stz.maxDDPct = st.maxDDPct) :
    (backtestStep envZero data u i stz).model = eraseModel (backtestStep env data u i st).model
    ∧ (backtestStep envZero data u i stz).bh = (backtestStep env data u i st).bh
    ∧ (backtestStep envZero data u i stz).peak = (backtestStep env data u i st).peak
    ∧ (backtestStep envZero data u i stz).maxDD = (backtestStep env data u i st).maxDD
    ∧ (backtestStep envZero data u i stz).maxDDPct = (backtestStep env data u i st).maxDDPct := by
  have hmodel : (backtestStep envZero data u i stz).model
      = eraseModel (backtestStep env data u i st).model := by
    show ({ (tradeStep envZero (data.getD i default) (detailedHistoryAt data u i) stz.model stz.k).1 with
        state := settleModelState (settleBarAt data i)
          (tradeStep envZero (data.getD i default) (detailedHistoryAt data u i) stz.model stz.k).1.state } : TradingModel)
      = eraseModel { (tradeStep env (data.getD i default) (detailedHistoryAt data u i) st.model st.k).1 with
        state := settleModelState (settleBarAt data i)
          (tradeStep env (data.getD i default) (detailedHistoryAt data u i) st.model st.k).1.state }
    rw [hm, tradeStep_erase env (data.getD i default) (detailedHistoryAt data u i) st.model st.k stz.k]
    exact settleModel_erase_model (settleBarAt data i)
      (tradeStep env (data.getD i default) (detailedHistoryAt data u i) st.model st.k).1
  have hbal : (backtestStep envZero data u i stz).model.state.balance
      = (backtestStep env data u i st).model.state.balance := by
    rw [hmodel]
    rfl
  have ebh : ∀ (e : ℕ → ℕ × ℕ) (s : BtLoop), (backtestStep e data u i s).bh
      = s.bh ++ [((data.getD i default).timestamp,
            (backtestStep e data u i s).model.state.balance)] := fun _ _ => rfl
  have epeak : ∀ (e : ℕ → ℕ × ℕ) (s : BtLoop), (backtestStep e data u i s).peak
      = (if (backtestStep e data u i s).model.state.balance > s.peak
          then (backtestStep e data u i s).model.state.balance else s.peak) := fun _ _ => rfl
  have hpeak2 : (backtestStep envZero data u i stz).peak
      = (backtestStep env data u i st).peak := by
    rw [epeak envZero stz, epeak env st, hp, hbal]
  have edd : ∀ (e : ℕ → ℕ × ℕ) (s : BtLoop), (backtestStep e data u i s).maxDD
      = (if (backtestStep e data u i s).peak - (backtestStep e data u i s).model.state.balance > s.maxDD
          then (backtestStep e data u i s).peak - (backtestStep e data u i s).model.state.balance
          else s.maxDD) := fun _ _ => rfl
  have eddp : ∀ (e : ℕ → ℕ × ℕ) (s : BtLoop), (backtestStep e data u i s).maxDDPct
      = (if ((backtestStep e data u i s).peak - (backtestStep e data u i s).model.state.balance)
              / (backtestStep e data u i s).peak * 100 > s.maxDDPct
          then ((backtestStep e data u i s).peak - (backtestStep e data u i s).model.state.balance)
              / (backtestStep e data u i s).peak * 100
          else s.maxDDPct) := fun _ _ => rfl
  refine ⟨hmodel, ?_, hpeak2, ?_, ?_⟩
  · rw [ebh envZero stz, ebh env st, hbh, hbal]
  · rw [edd envZero stz, edd env st, hd1, hbal, hpeak2]
  · rw [eddp envZero stz, eddp env st, hd2, hbal, hpeak2]

theorem btLoop_erase (env : ℕ → ℕ × ℕ) (data : List MarketData) (u : Bool) :
    ∀ (l : List ℕ) (st stz : BtLoop),
    stz.model = eraseModel st.model → stz.bh = st.bh → stz.peak = st.peak →
    stz.maxDD = st.maxDD → stz.maxDDPct = st.maxDDPct →
    (l.foldl (fun s j => backtestStep envZero data u (batchSize + j) s) stz).model
        = eraseModel (l.foldl (fun s j => backtestStep env data u (batchSize + j) s) st).model
    ∧ (l.foldl (fun s j => backtestStep envZero data u (batchSize + j) s) stz).bh
        = (l.foldl (fun s j => backtestStep env data u (batchSize + j) s) st).bh
    ∧ (l.foldl (fun s j => backtestStep envZero data u (batchSize + j) s) stz).peak
        = (l.foldl (fun s j => backtestStep env data u (batchSize + j) s) st).peak
    ∧ (l.foldl (fun s j => backtestStep envZero data u (batchSize + j) s) stz).maxDD
        = (l.foldl (fun s j => backtestStep env data u (batchSize + j) s) st).maxDD
    ∧ (l.foldl (fun s j => backtestStep envZero data u (batchSize + j) s) stz).maxDDPct
        = (l.foldl (fun s j => backtestStep env data u (batchSize + j) s) st).maxDDPct
  | [], _, _, h1, h2, h3, h4, h5 => ⟨h1, h2, h3, h4, h5⟩
  | j :: l, st, stz, h1, h2, h3, h4, h5 => by
    simp only [List.foldl_cons]
    obtain ⟨g1, g2, g3, g4, g5⟩ :=
      backtestStep_erase env data u (batchSize + j) st stz h1 h2 h3 h4 h5
    exact btLoop_erase env data u l (backtestStep env data u (batchSize + j) st)
      (backtestStep envZero data u (batchSize + j) stz) g1 g2 g3 g4 g5

theorem btLoopRun_erase (env : ℕ → ℕ × ℕ) (data : List MarketData) (u : Bool)
    (tmpl : TradingModel) (init : ℚ) (k0 j0 : ℕ) :
    (btLoopRun envZero data u tmpl init j0).model
        = eraseModel (btLoopRun env data u tmpl init k0).model
    ∧ (btLoopRun envZero data u tmpl init j0).bh = (btLoopRun env data u tmpl init k0).bh
    ∧ (btLoopRun envZero data u tmpl init j0).peak = (btLoopRun env data u tmpl init k0).peak
    ∧ (btLoopRun envZero data u tmpl init j0).maxDD = (btLoopRun env data u tmpl init k0).maxDD
    ∧ (btLoopRun envZero data u tmpl init j0).maxDDPct
        = (btLoopRun env data u tmpl init k0).maxDDPct := by
  unfold btLoopRun
  exact btLoop_erase env data u (List.range (data.length - batchSize))
    (btLoopInit tmpl data init k0) (btLoopInit tmpl data init j0) rfl rfl rfl rfl rfl

theorem btFinalModel_erase (env : ℕ → ℕ × ℕ) (data : List MarketData) (u : Bool)
    (tmpl : TradingModel) (init : ℚ) (k0 j0 : ℕ) :
    btFinalModel envZero data u tmpl init j0
      = eraseModel (btFinalModel env data u tmpl init k0) := by
  obtain ⟨g1, g2, g3, g4, g5⟩ := btLoopRun_erase env data u tmpl init k0 j0
  unfold btFinalModel
  by_cases hlen : data.length > 0
  · rw [if_pos hlen, if_pos hlen, g1]
    exact settleModel_erase_model (data.getLastD default)
      (btLoopRun env data u tmpl init k0).model
  · rw [if_neg hlen, if_neg hlen, g1]

theorem backtestModel_erase (env : ℕ → ℕ × ℕ) (sqrtFn : ℚ → ℚ) (tmpl : TradingModel)
    (data : List MarketData) (init : ℚ) (u : Bool) (k0 j0 : ℕ) :
    eraseResult (backtestModel envZero sqrtFn tmpl data init u j0).1
      = eraseResult (backtestModel env sqrtFn tmpl data init u k0).1 := by
  obtain ⟨g1, g2, g3, g4, g5⟩ := btLoopRun_erase env data u tmpl init k0 j0
  have hfm := btFinalModel_erase env data u tmpl init k0 j0
  have hid : (btFinalModel envZero data u tmpl init j0).id
      = (btFinalModel env data u tmpl init k0).id := by rw [hfm]; rfl
  have hname : (btFinalModel envZero data u tmpl init j0).name
      = (btFinalModel env data u tmpl init k0).name := by rw [hfm]; rfl
  have hbal : (btFinalModel envZero data u tmpl init j0).state.balance
      = (btFinalModel env data u tmpl init k0).state.balance := by rw [hfm]; rfl
  have hpnl : (btFinalModel envZero data u tmpl init j0).state.totalPnL
      = (btFinalModel env data u tmpl init k0).state.totalPnL := by rw [hfm]; rfl
  have htr : (btFinalModel envZero data u tmpl init j0).state.trades
      = ((btFinalModel env data u tmpl init k0).state.trades).map eraseTrade := by
    rw [hfm]; rfl
  have hcomp : eraseTrade ∘ eraseTrade = eraseTrade := funext eraseTrade_idem
  show ({ modelId := (btFinalModel envZero data u tmpl init j0).id
          modelName := (btFinalModel envZero data u tmpl init j0).name
          startingBalance := init
          endingBalance := (btFinalModel envZero data u tmpl init j0).state.balance
          totalReturn := (btFinalModel envZero data u tmpl init j0).state.balance - init
          totalReturnPercent :=
            ((btFinalModel envZero data u tmpl init j0).state.balance - init) / init * 100
          totalTrades := (btFinalModel envZero data u tmpl init j0).state.trades.length
          winningTrades := 0
          losingTrades := 0
          winRate := 0
          totalPnL := (btFinalModel envZero data u tmpl init j0).state.totalPnL
          averageWin := 0
          averageLoss := 0
          profitFactor := some 0
          maxDrawdown := (btLoopRun envZero data u tmpl init j0).maxDD
          maxDrawdownPercent := (btLoopRun envZero data u tmpl init j0).maxDDPct
          sharpe := sharpeOf sqrtFn (btLoopRun envZero data u tmpl init j0).bh
          trades := ((btFinalModel envZero data u tmpl init j0).state.trades).map eraseTrade
          balanceHistory := (btLoopRun envZero data u tmpl init j0).bh
          dailyReturns := dailyReturnsOf (btLoopRun envZero data u tmpl init j0).bh init }
        : BacktestResult)
      = { modelId := (btFinalModel env data u tmpl init k0).id
          modelName := (btFinalModel env data u tmpl init k0).name
          startingBalance := init
          endingBalance := (btFinalModel env data u tmpl init k0).state.balance
          totalReturn := (btFinalModel env data u tmpl init k0).state.balance - init
          totalReturnPercent :=
            ((btFinalModel env data u tmpl init k0).state.balance - init) / init * 100
          totalTrades := (btFinalModel env data u tmpl init k0).state.trades.length
          winningTrades := 0
          losingTrades := 0
          winRate := 0
          totalPnL := (btFinalModel env data u tmpl init k0).state.totalPnL
          averageWin := 0
          averageLoss := 0
          profitFactor := some 0
          maxDrawdown := (btLoopRun env data u tmpl init k0).maxDD
          maxDrawdownPercent := (btLoopRun env data u tmpl init k0).maxDDPct
          sharpe := sharpeOf sqrtFn (btLoopRun env data u tmpl init k0).bh
          trades := ((btFinalModel env data u tmpl init k0).state.trades).map eraseTrade
          balanceHistory := (btLoopRun env data u tmpl init k0).bh
          dailyReturns := dailyReturnsOf (btLoopRun env data u tmpl init k0).bh init }
  rw [hid, hname, hbal, hpnl, htr, g2, g4, g5, List.length_map, List.map_map, hcomp]

theorem btResultsAux_erase (env : ℕ → ℕ × ℕ) (sqrtFn : ℚ → ℚ)
    (data : List MarketData) (init : ℚ) (u : Bool) :
    ∀ (models : List TradingModel) (az a : List BacktestResult × ℕ),
    (az.1).map eraseResult = (a.1).map eraseResult →
    ((models.foldl
        (fun (x : List BacktestResult × ℕ) tmpl =>
          let r := backtestModel envZero sqrtFn tmpl data init u x.2
          (x.1 ++ [r.1], r.2)) az).1).map eraseResult
      = ((models.foldl
          (fun (x : List BacktestResult × ℕ) tmpl =>
            let r := backtestModel env sqrtFn tmpl data init u x.2
            (x.1 ++ [r.1], r.2)) a).1).map eraseResult
  | [], _, _, h => h
  | tmpl :: ms, az, a, h => by
    simp only [List.foldl_cons]
    refine btResultsAux_erase env sqrtFn data init u ms _ _ ?_
    simp only [List.map_append, List.map_cons, List.map_nil, h]
    rw [backtestModel_erase env sqrtFn tmpl data init u a.2 az.2]

theorem btResults_erase (env : ℕ → ℕ × ℕ) (sqrtFn : ℚ → ℚ)
    (models : List TradingModel) (data : List MarketData) (init : ℚ) (u : Bool) :
    (btResults envZero sqrtFn models data init u).map eraseResult
      = (btResults env sqrtFn models data init u).map eraseResult := by
  unfold btResults
  exact btResultsAux_erase env sqrtFn data init u models ([], 0) ([], 0) rfl

theorem pickBest_erase :
    ∀ (l1 l2 : List BacktestResult) (a1 a2 : BacktestResult),
    l1.map eraseResult = l2.map eraseResult → eraseResult a1 = eraseResult a2 →
    eraseResult (l1.foldl
        (fun best cur => if cur.totalReturnPercent > best.totalReturnPercent then cur else best) a1)
      = eraseResult (l2.foldl
        (fun best cur => if cur.totalReturnPercent > best.totalReturnPercent then cur else best) a2)
  | [], [], _, _, _, ha => ha
  | [], _ :: _, _, _, hl, _ => by simp at hl
  | _ :: _, [], _, _, hl, _ => by simp at hl
  | x :: l1, y :: l2, a1, a2, hl, ha => by
    simp only [List.map_cons, List.cons.injEq] at hl
    obtain ⟨hxy, hl⟩ := hl
    have htx : x.totalReturnPercent = y.totalReturnPercent := by
      have h := congrArg BacktestResult.totalReturnPercent hxy
      exact h
    have hta : a1.totalReturnPercent = a2.totalReturnPercent := by
      have h := congrArg BacktestResult.totalReturnPercent ha
      exact h
    simp only [List.foldl_cons]
    by_cases hcmp : x.totalReturnPercent > a1.totalReturnPercent
    · rw [if_pos hcmp, if_pos (by rw [← htx, ← hta]; exact hcmp)]
      exact pickBest_erase l1 l2 x y hl hxy
    · rw [if_neg hcmp, if_neg (by rw [← htx, ← hta]; exact hcmp)]
      exact pickBest_erase l1 l2 a1 a2 hl ha

theorem pickWorst_erase :
    ∀ (l1 l2 : List BacktestResult) (a1 a2 : BacktestResult),
    l1.map eraseResult = l2.map eraseResult → eraseResult a1 = eraseResult a2 →
    eraseResult (l1.foldl
        (fun worst cur => if cur.totalReturnPercent < worst.totalReturnPercent then cur else worst) a1)
      = eraseResult (l2.foldl
        (fun worst cur => if cur.totalReturnPercent < worst.totalReturnPercent then cur else worst) a2)
  | [], [], _, _, _, ha => ha
  | [], _ :: _, _, _, hl, _ => by simp at hl
  | _ :: _, [], _, _, hl, _ => by simp at hl
  | x :: l1, y :: l2, a1, a2, hl, ha => by
    simp only [List.map_cons, List.cons.injEq] at hl
    obtain ⟨hxy, hl⟩ := hl
    have htx : x.totalReturnPercent = y.totalReturnPercent := by
      have h := congrArg BacktestResult.totalReturnPercent hxy
      exact h
    have hta : a1.totalReturnPercent = a2.totalReturnPercent := by
      have h := congrArg BacktestResult.totalReturnPercent ha
      exact h
    simp only [List.foldl_cons]
    by_cases hcmp : x.totalReturnPercent < a1.totalReturnPercent
    · rw [if_pos hcmp, if_pos (by rw [← htx, ← hta]; exact hcmp)]
      exact pickWorst_erase l1 l2 x y hl hxy
    · rw [if_neg hcmp, if_neg (by rw [← htx, ← hta]; exact hcmp)]
      exact pickWorst_erase l1 l2 a1 a2 hl ha

theorem bestOf_erase (l1 l2 : List BacktestResult)
    (hl : l1.map eraseResult = l2.map eraseResult) :
    (bestOf l1).map eraseResult = (bestOf l2).map eraseResult := by
  cases l1 with
  | nil =>
    cases l2 with
    | nil => rfl
    | cons y l2 => simp at hl
  | cons x l1 =>
    cases l2 with
    | nil => simp at hl
    | cons y l2 =>
      have hxy : eraseResult x = eraseResult y := by
        simp only [List.map_cons, List.cons.injEq] at hl
        exact hl.1
      show some (eraseResult ((x :: l1).foldl
          (fun best cur => if cur.totalReturnPercent > best.totalReturnPercent then cur else best) x))
        = some (eraseResult ((y :: l2).foldl
          (fun best cur => if cur.totalReturnPercent > best.totalReturnPercent then cur else best) y))
      exact congrArg some (pickBest_erase (x :: l1) (y :: l2) x y hl hxy)

theorem worstOf_erase (l1 l2 : List BacktestResult)
    (hl : l1.map eraseResult = l2.map eraseResult) :
    (worstOf l1).map eraseResult = (worstOf l2).map eraseResult := by
  cases l1 with
  | nil =>
    cases l2 with
    | nil => rfl
    | cons y l2 => simp at hl
  | cons x l1 =>
    cases l2 with
    | nil => simp at hl
    | cons y l2 =>
      have hxy : eraseResult x = eraseResult y := by
        simp only [List.map_cons, List.cons.injEq] at hl
        exact hl.1
      show some (eraseResult ((x :: l1).foldl
          (fun worst cur => if cur.totalReturnPercent < worst.totalReturnPercent then cur else worst) x))
        = some (eraseResult ((y :: l2).foldl
          (fun worst cur => if cur.totalReturnPercent < worst.totalReturnPercent then cur else worst) y))
      exact congrArg some (pickWorst_erase (x :: l1) (y :: l2) x y hl hxy)

theorem map_trp_of_erase (l1 l2 : List BacktestResult)
    (hl : l1.map eraseResult = l2.map eraseResult) :
    l1.map (fun r => r.totalReturnPercent) = l2.map (fun r => r.totalReturnPercent) := by
  have h1 : (fun (r : BacktestResult) => r.totalReturnPercent)
      = (fun (r : BacktestResult) => r.totalReturnPercent) ∘ eraseResult := funext fun _ => rfl
  rw [h1, ← List.map_map, ← List.map_map, hl]

theorem length_of_erase (l1 l2 : List BacktestResult)
    (hl : l1.map eraseResult = l2.map eraseResult) : l1.length = l2.length := by
  have h := congrArg List.length hl
  simpa using h

theorem runBacktest_erase (env : ℕ → ℕ × ℕ) (sqrtFn : ℚ → ℚ)
    (models : List TradingModel) (data : List MarketData) (init : ℚ) (u : Bool) :
    (runBacktest envZero sqrtFn models data init u).map eraseSummary
      = (runBacktest env sqrtFn models data init u).map eraseSummary := by
  unfold runBacktest
  by_cases hlen : data.length < 20
  · rw [if_pos hlen, if_pos hlen]
  · rw [if_neg hlen, if_neg hlen]
    have hres := btResults_erase env sqrtFn models data init u
    show Except.ok
        ({ periodStart := (data.headD default).timestamp
           periodEnd := (data.getLastD default).timestamp
           totalBars := data.length
           days := (data.length + 95) / 96
           results := (btResults envZero sqrtFn models data init u).map eraseResult
           bestModel := (bestOf (btResults envZero sqrtFn models data init u)).map eraseResult
           worstModel := (worstOf (btResults envZero sqrtFn models data init u)).map eraseResult
           averageReturn :=
             if (btResults envZero sqrtFn models data init u).length > 0 then
               ((btResults envZero sqrtFn models data init u).map
                   fun r => r.totalReturnPercent).sum
                 / ((btResults envZero sqrtFn models data init u).length : ℚ)
             else 0
           averageWinRate := 0 } : BacktestSummary)
      = Except.ok
        { periodStart := (data.headD default).timestamp
          periodEnd := (data.getLastD default).timestamp
          totalBars := data.length
          days := (data.length + 95) / 96
          results := (btResults env sqrtFn models data init u).map eraseResult
          bestModel := (bestOf (btResults env sqrtFn models data init u)).map eraseResult
          worstModel := (worstOf (btResults env sqrtFn models data init u)).map eraseResult
          averageReturn :=
            if (btResults env sqrtFn models data init u).length > 0 then
              ((btResults env sqrtFn models data init u).map
                  fun r => r.totalReturnPercent).sum
                / ((btResults env sqrtFn models data init u).length : ℚ)
            else 0
          averageWinRate := 0 }
    rw [hres, bestOf_erase _ _ hres, worstOf_erase _ _ hres,
        map_trp_of_erase _ _ hres, length_of_erase _ _ hres]

/-- C9 (amended): the Momentum, Mean-Reversion, RSI and Volatility
strategies are pure functions of the bar data (in this embedding they
take no oracle), so over identical bar sequences they make identical
decisions in every run; and two backtests of them over identical bar
sequences produce BacktestResults identical in every field except the
trade records' id and timestamp — which incorporate the wall clock and
the random generator — and the win/loss statistics derived from those
trade timestamps (winningTrades, losingTrades, winRate, averageWin,
averageLoss, profitFactor, and the summary's averageWinRate).  Runs
sharing one clock/randomness stream agree on everything. -/
theorem c9_deterministic_backtest_amended (env1 env2 : ℕ → ℕ × ℕ) (sqrtFn : ℚ → ℚ)
    (data : List MarketData) (init : ℚ) (flag : Bool) :
    (runBacktest env1 sqrtFn (deterministicModels sqrtFn) data init flag).map eraseSummary
      = (runBacktest env2 sqrtFn (deterministicModels sqrtFn) data init flag).map eraseSummary :=
  (runBacktest_erase env1 sqrtFn (deterministicModels sqrtFn) data init flag).symm.trans
    (runBacktest_erase env2 sqrtFn (deterministicModels sqrtFn) data init flag)

/-- C9 counterexample to the claim as stated: two momentum backtests over
the identical 22-bar series, differing only in the run-time clock and
random draws, produce different `trades` fields (different ids) and even
different `winningTrades` counts (2 against 0), so the final
BacktestResult fields are not identical across runs. -/
theorem c9_trade_id_counterexample :
    (runBacktest envA sqrtZ [createMomentumModel] data22 100 false).toOption.map
        (fun s => s.results.map fun r => (r.winningTrades, r.trades.map fun t => t.id))
      ≠ (runBacktest envB sqrtZ [createMomentumModel] data22 100 false).toOption.map
        (fun s => s.results.map fun r => (r.winningTrades, r.trades.map fun t => t.id)) := by
  decide
